import Mathlib

/-!
Verification of the Feature Alignment, Normalization, and Activity-Ratio
Engine of the metagenome-analysis-series repository.

The Python scripts are shallowly embedded: count values are exact rationals
(the scripts use floats, but every comparison and arithmetic identity at
stake here is exact); a float NaN is represented as `none` in `Option ℚ`;
log-ratio facts are stated over ℝ with `Real.logb`.
-/

namespace Metagenome

/-! ## Data model (section 3 of the design)

A count matrix maps feature identifiers (strings, unique within a matrix)
to per-sample value rows, kept in file order. -/

structure CountMatrix where
  rows : List (String × List ℚ)

def CountMatrix.features (m : CountMatrix) : List String :=
  m.rows.map Prod.fst

/-! ## Alignment (scripts/01_load_and_prepare_data.py, lines 54-64)

`common_genes = mg_genes.index.intersection(mtx_transcripts.index)` keeps
the first index order; `df.loc[common_genes]` restricts a matrix to those
rows in that order. -/

def commonFeatures (a b : CountMatrix) : List String :=
  a.features.filter (fun f => b.features.contains f)

def CountMatrix.restrict (m : CountMatrix) (fs : List String) : CountMatrix :=
  ⟨fs.filterMap (fun f => (m.rows.find? (fun r => r.1 == f)).map (fun r => (f, r.2)))⟩

/-- The alignment step of 01_load_and_prepare_data.py: restrict both
matrices to the common feature list.  The script performs no emptiness
check: it is a total function, it produces a (possibly empty) pair of
aligned matrices and saves them. -/
def alignStep (mg mtx : CountMatrix) : CountMatrix × CountMatrix :=
  let common := commonFeatures mg mtx
  (mg.restrict common, mtx.restrict common)

/-- The cardinalities the script prints (lines 55-57): common count,
MG-specific count, MTX-specific count. -/
def alignReport (mg mtx : CountMatrix) : Nat × Nat × Nat :=
  let common := commonFeatures mg mtx
  (common.length, mg.features.length - common.length,
    mtx.features.length - common.length)

/-- Modelled from the spec (section 4.1): the spec demands that alignment
fail with a data error reporting the two input cardinalities when the
intersection is empty.  This definition follows the words of the spec, for
comparison with `alignStep`, which follows the source. -/
def alignSpecRequired (mg mtx : CountMatrix) :
    Except (Nat × Nat) (CountMatrix × CountMatrix) :=
  let common := commonFeatures mg mtx
  if common.isEmpty then
    Except.error (mg.features.length, mtx.features.length)
  else
    Except.ok (mg.restrict common, mtx.restrict common)

/-! ## Depth normalization (scripts/02_normalize_data.py, normalize_cpm)

`totals = df.sum(axis=0); cpm = (df / totals) * 1e6` acts per column:
every entry is divided by its column total and scaled by K.  With
non-negative entries a zero column total forces every numerator to zero,
so in float arithmetic every entry of that column becomes 0/0 = NaN;
division by a zero total is therefore modelled as `none`. -/

def pdiv (a b : ℚ) : Option ℚ :=
  if b = 0 then none else some (a / b)

def normalizeCol (K : ℚ) (col : List ℚ) : List (Option ℚ) :=
  let total := col.sum
  col.map (fun v => (pdiv v total).map (fun q => q * K))

/-- CPM normalization, K = 1,000,000 (02_normalize_data.py line 38). -/
def normalize_cpm (col : List ℚ) : List (Option ℚ) :=
  normalizeCol 1000000 col

/-- Percentage normalization, K = 100 (taxonomy_integration.py lines 118-119). -/
def normalizePercent (col : List ℚ) : List (Option ℚ) :=
  normalizeCol 100 col

def definedVals (l : List (Option ℚ)) : List ℚ :=
  l.filterMap id

def sumDefined (l : List (Option ℚ)) : ℚ :=
  (definedVals l).sum

/-! ## Activity-band counts (scripts/03_calculate_expression_ratios.py,
lines 69-74)

`(mean > 2).sum()`, `((mean > 0) & (mean < 2)).sum()`, `(mean < 0).sum()`.
A pandas comparison against NaN is False, so a `none` mean is counted in
no band. -/

def isHighBand (x : Option ℚ) : Bool :=
  match x with
  | some m => decide (2 < m)
  | none => false

def isModerateBand (x : Option ℚ) : Bool :=
  match x with
  | some m => decide (0 < m ∧ m < 2)
  | none => false

def isUnderBand (x : Option ℚ) : Bool :=
  match x with
  | some m => decide (m < 0)
  | none => false

def highlyExpressedCount (means : List (Option ℚ)) : Nat :=
  means.countP isHighBand

def moderatelyExpressedCount (means : List (Option ℚ)) : Nat :=
  means.countP isModerateBand

def underExpressedCount (means : List (Option ℚ)) : Nat :=
  means.countP isUnderBand

/-- A mean lands in some band exactly when it is defined and is neither 0
nor 2: the strict inequalities of the script leave the two boundary values
in no band. -/
def inSomeBand (x : Option ℚ) : Bool :=
  match x with
  | some m => decide (¬(m = 0 ∨ m = 2))
  | none => false

lemma band_pointwise (x : Option ℚ) :
    ((if isHighBand x then 1 else 0) + (if isModerateBand x then 1 else 0)
      + (if isUnderBand x then 1 else 0) : Nat)
      = (if inSomeBand x then 1 else 0) := by
  cases x with
  | none => simp [isHighBand, isModerateBand, isUnderBand, inSomeBand]
  | some m =>
    simp only [isHighBand, isModerateBand, isUnderBand, inSomeBand,
      decide_eq_true_eq]
    by_cases hz : m = 0
    · subst hz; decide
    by_cases ht : m = 2
    · subst ht; decide
    rw [if_pos (show ¬(m = 0 ∨ m = 2) by rintro (rfl | rfl) <;> simp_all)]
    rcases lt_trichotomy m 0 with h0 | h0 | h0
    · rw [if_neg (show ¬ (2:ℚ) < m by linarith),
        if_neg (show ¬ ((0:ℚ) < m ∧ m < 2) by rintro ⟨h, _⟩; linarith),
        if_pos h0]
    · exact absurd h0 hz
    · rcases lt_trichotomy m 2 with h2 | h2 | h2
      · rw [if_neg (show ¬ (2:ℚ) < m by linarith),
          if_pos (show (0:ℚ) < m ∧ m < 2 from ⟨h0, h2⟩),
          if_neg (show ¬ m < 0 by linarith)]
      · exact absurd h2 ht
      · rw [if_pos h2,
          if_neg (show ¬ ((0:ℚ) < m ∧ m < 2) by rintro ⟨_, h⟩; linarith),
          if_neg (show ¬ m < 0 by linarith)]

lemma band_disjoint (x : Option ℚ) :
    (isHighBand x && isModerateBand x) = false ∧
    (isHighBand x && isUnderBand x) = false ∧
    (isModerateBand x && isUnderBand x) = false := by
  cases x with
  | none => simp [isHighBand, isModerateBand, isUnderBand]
  | some m =>
    simp only [isHighBand, isModerateBand, isUnderBand, Bool.and_eq_false_iff,
      decide_eq_false_iff_not, decide_eq_true_eq]
    constructor
    · by_cases h : 2 < m
      · right; intro hc; rcases hc with ⟨_, h2⟩; linarith
      · left; simpa using h
    constructor
    · by_cases h : 2 < m
      · right; intro hc; linarith
      · left; simpa using h
    · by_cases h : 0 < m ∧ m < 2
      · right; intro hc; linarith [h.1]
      · left; simpa using h

lemma band_counts_eq (means : List (Option ℚ)) :
    highlyExpressedCount means + moderatelyExpressedCount means
      + underExpressedCount means = means.countP inSomeBand := by
  induction means with
  | nil => rfl
  | cons x xs ih =>
    simp only [highlyExpressedCount, moderatelyExpressedCount,
      underExpressedCount, List.countP_cons] at *
    have := band_pointwise x
    omega

/-- Claim C1 (counterexample): a single feature whose mean log2 ratio is
exactly 2 falls into no band, so the three band counts sum to 0 while the
aligned feature count is 1 — the counts do not sum to the aligned count. -/
theorem C1_bands_counterexample :
    highlyExpressedCount [some (2:ℚ)] + moderatelyExpressedCount [some (2:ℚ)]
      + underExpressedCount [some (2:ℚ)] = 0 ∧
    ([some (2:ℚ)]).length = 1 := by
  constructor
  · decide
  · rfl

/-- Claim C1 (amended): the three activity bands are pairwise disjoint, and
their counts sum to the number of features whose mean ratio is defined and
is neither exactly 0 nor exactly 2; a feature whose mean is exactly 0,
exactly 2, or NaN is counted in no band, so the three counts sum to the
aligned feature count only when no such boundary mean occurs. -/
theorem C1_bands_amended (means : List (Option ℚ)) :
    (∀ x : Option ℚ,
      (isHighBand x && isModerateBand x) = false ∧
      (isHighBand x && isUnderBand x) = false ∧
      (isModerateBand x && isUnderBand x) = false) ∧
    highlyExpressedCount means + moderatelyExpressedCount means
      + underExpressedCount means
      = means.countP inSomeBand := by
  exact ⟨fun x => band_disjoint x, band_counts_eq means⟩

lemma restrict_nil (m : CountMatrix) : m.restrict [] = ⟨[]⟩ := rfl

/-- Claim C2 (counterexample): two one-feature matrices with disjoint
feature sets.  The source alignment step does not fail: it produces the
pair of empty aligned matrices (which the script then saves), while the
behaviour the spec demands is the explicit error carrying both input
cardinalities. -/
theorem C2_align_counterexample :
    commonFeatures ⟨[("g1", [1])]⟩ ⟨[("g2", [2])]⟩ = [] ∧
    alignStep ⟨[("g1", [1])]⟩ ⟨[("g2", [2])]⟩ = (⟨[]⟩, ⟨[]⟩) ∧
    alignSpecRequired ⟨[("g1", [1])]⟩ ⟨[("g2", [2])]⟩ = Except.error (1, 1) := by
  refine ⟨rfl, rfl, rfl⟩

/-- Claim C2 (amended): when the feature intersection is empty, the
Alignment step of 01_load_and_prepare_data.py does not raise a data error;
it reports the cardinalities (0 common features and the two input-specific
counts) and still produces the pair of empty aligned matrices, so the run
continues.  Only the spec-modelled variant fails with the two input
cardinalities. -/
theorem C2_align_amended (mg mtx : CountMatrix)
    (h : commonFeatures mg mtx = []) :
    alignStep mg mtx = (⟨[]⟩, ⟨[]⟩) ∧
    alignReport mg mtx = (0, mg.features.length, mtx.features.length) ∧
    alignSpecRequired mg mtx
      = Except.error (mg.features.length, mtx.features.length) := by
  refine ⟨?_, ?_, ?_⟩
  · simp only [alignStep, h, restrict_nil]
  · simp only [alignReport, h, List.length_nil, Nat.sub_zero]
  · simp only [alignSpecRequired, h, List.isEmpty_nil, if_true]

/-- Claim C2 (witness): the amended behaviour at concrete disjoint
matrices. -/
theorem C2_align_witness :
    alignStep ⟨[("a", [1, 2])]⟩ ⟨[("b", [3])]⟩ = (⟨[]⟩, ⟨[]⟩) ∧
    alignReport ⟨[("a", [1, 2])]⟩ ⟨[("b", [3])]⟩ = (0, 1, 1) ∧
    alignSpecRequired ⟨[("a", [1, 2])]⟩ ⟨[("b", [3])]⟩ = Except.error (1, 1) :=
  C2_align_amended ⟨[("a", [1, 2])]⟩ ⟨[("b", [3])]⟩ rfl

/-! ## Claim C3: the normalization round trip -/

lemma definedVals_map_some (f : ℚ → ℚ) (l : List ℚ) :
    definedVals (l.map (fun v => some (f v))) = l.map f := by
  induction l with
  | nil => rfl
  | cons a l ih =>
    simp only [List.map_cons, definedVals, List.filterMap_cons, id] at *
    rw [ih]

lemma sum_map_div_mul (col : List ℚ) (T K : ℚ) :
    (col.map (fun v => v / T * K)).sum = col.sum / T * K := by
  induction col with
  | nil => simp
  | cons a l ih => simp [ih, add_div, add_mul]

/-- Claim C3: for a column of non-negative counts, if the column total is
non-zero then every normalized entry is defined and the normalized column
sums exactly to the target constant K; if the column total is zero, every
normalized entry is NaN. -/
theorem C3_normalize_roundtrip (K : ℚ) (col : List ℚ)
    (hnn : ∀ v ∈ col, 0 ≤ v) :
    (col.sum ≠ 0 →
      (∀ x ∈ normalizeCol K col, x.isSome) ∧
      sumDefined (normalizeCol K col) = K) ∧
    (col.sum = 0 → ∀ x ∈ normalizeCol K col, x = none) := by
  constructor
  · intro hT
    have hcol : normalizeCol K col
        = col.map (fun v => some (v / col.sum * K)) := by
      simp only [normalizeCol, pdiv, if_neg hT, Option.map_some']
    constructor
    · intro x hx
      rw [hcol] at hx
      rcases List.mem_map.mp hx with ⟨v, _, rfl⟩
      rfl
    · rw [sumDefined, hcol, definedVals_map_some, sum_map_div_mul,
        div_self hT, one_mul]
  · intro hT x hx
    simp only [normalizeCol, pdiv, hT, if_pos, List.mem_map] at hx
    rcases hx with ⟨v, _, rfl⟩
    rfl

/-- Claim C3 (witness): a concrete column with total 4, normalized to
K = 1,000,000. -/
theorem C3_normalize_witness :
    (∀ x ∈ normalizeCol 1000000 [(1:ℚ), 3], x.isSome) ∧
    sumDefined (normalizeCol 1000000 [(1:ℚ), 3]) = 1000000 :=
  (C3_normalize_roundtrip 1000000 [(1:ℚ), 3] (by decide)).1
    (by norm_num [List.sum_cons, List.sum_nil])

/-! ## Ratio computation (scripts/03_calculate_expression_ratios.py,
lines 49-58, and taxonomy_integration.py line 132)

`np.log2((v + p) / (g + p))` with pseudocount p = 1 (CPM scale) or
p = 0.01 (percentage scale).  Stated over ℝ: for v, g ≥ 0 and p > 0 the
denominator is strictly positive and the argument of log2 is strictly
positive, which is exactly the condition under which float log2 returns a
finite number (no NaN, no infinity). -/

noncomputable def log2ratio (v g p : ℝ) : ℝ :=
  Real.logb 2 ((v + p) / (g + p))

/-- Claim C4: with a positive pseudocount the log2 ratio never divides by
zero (the denominator is non-zero), its log argument is strictly positive
(so the float computation is finite, never NaN or infinite), and at
v = g = 0 the ratio is exactly 0. -/
theorem C4_ratio_defined (v g p : ℝ) (hv : 0 ≤ v) (hg : 0 ≤ g)
    (hp : 0 < p) :
    g + p ≠ 0 ∧ 0 < (v + p) / (g + p) ∧
    ((v = 0 ∧ g = 0) → log2ratio v g p = 0) := by
  have hgp : 0 < g + p := by linarith
  have hvp : 0 < v + p := by linarith
  refine ⟨ne_of_gt hgp, div_pos hvp hgp, ?_⟩
  rintro ⟨rfl, rfl⟩
  simp only [log2ratio, zero_add, div_self (ne_of_gt hp), Real.logb_one]

/-- Claim C4 (witness): instantiated at v = 0, g = 0, p = 1. -/
theorem C4_ratio_witness :
    (0:ℝ) + 1 ≠ 0 ∧ 0 < ((0:ℝ) + 1) / ((0:ℝ) + 1) ∧
    (((0:ℝ) = 0 ∧ (0:ℝ) = 0) → log2ratio 0 0 1 = 0) :=
  C4_ratio_defined 0 0 1 le_rfl le_rfl one_pos

/-- Claim C6: swapping the activity and genomic values negates the log2
ratio. -/
theorem C6_ratio_antisymmetry (v g p : ℝ) (hv : 0 ≤ v) (hg : 0 ≤ g)
    (hp : 0 < p) :
    log2ratio v g p = - log2ratio g v p := by
  rw [log2ratio, log2ratio,
    show (v + p) / (g + p) = ((g + p) / (v + p))⁻¹ from (inv_div _ _).symm,
    Real.logb, Real.logb, Real.log_inv, neg_div]

/-- Claim C6 (witness): instantiated at v = 1, g = 2, p = 1. -/
theorem C6_ratio_witness : log2ratio 1 2 1 = - log2ratio 2 1 1 :=
  C6_ratio_antisymmetry 1 2 1 (by norm_num) (by norm_num) (by norm_num)

/-! ## Taxon activity score (taxonomy_integration.py line 131)

`mtx_mean / (mg_mean + 0.01)`: the 0.01 guard is added only to the
denominator, and the score is not log transformed. -/

def activityScore (mg_mean mtx_mean : ℚ) : ℚ :=
  mtx_mean / (mg_mean + 1 / 100)

/-- Claim C10: for non-negative means the activity-score denominator is
strictly positive (so the score is a defined finite value), the score is
non-negative, and it is exactly 0 whenever the RNA mean is 0 — the
numerator receives no additive constant. -/
theorem C10_activity_score (mg mtx : ℚ) (hmg : 0 ≤ mg) (hmtx : 0 ≤ mtx) :
    0 < mg + 1 / 100 ∧ 0 ≤ activityScore mg mtx ∧
    (mtx = 0 → activityScore mg mtx = 0) := by
  have hd : (0:ℚ) < mg + 1 / 100 := by
    have : (0:ℚ) < 1 / 100 := by norm_num
    linarith
  exact ⟨hd, div_nonneg hmtx (le_of_lt hd),
    fun hz => by simp [activityScore, hz]⟩

/-- Claim C10 (witness): instantiated at mg_mean = 0, mtx_mean = 0. -/
theorem C10_activity_score_witness :
    0 < (0:ℚ) + 1 / 100 ∧ 0 ≤ activityScore 0 0 ∧
    ((0:ℚ) = 0 → activityScore 0 0 = 0) :=
  C10_activity_score 0 0 le_rfl le_rfl

/-! ## Quadrant classification
(day3_binning/scripts/visulization/combine_abundance_coverage.py,
classify, lines 104-119)

The NaN check runs first; then the elif chain with strict > on the high
side of each axis and fixed thresholds 5 (abundance) and 80 (coverage). -/

def classify (ra cov : Option ℚ) : String :=
  match ra, cov with
  | some a, some c =>
    if 5 < a ∧ 80 < c then "High_Abundance_High_Coverage"
    else if 5 < a ∧ c ≤ 80 then "High_Abundance_Low_Coverage"
    else if a ≤ 5 ∧ 80 < c then "Low_Abundance_High_Coverage"
    else "Low_Abundance_Low_Coverage"
  | _, _ => "Incomplete_Data"

/-- The same decision structure with the two thresholds as parameters; the
source instantiates them at 5 and 80. -/
def classifyWith (raT covT : ℚ) (ra cov : Option ℚ) : String :=
  match ra, cov with
  | some a, some c =>
    if raT < a ∧ covT < c then "High_Abundance_High_Coverage"
    else if raT < a ∧ c ≤ covT then "High_Abundance_Low_Coverage"
    else if a ≤ raT ∧ covT < c then "Low_Abundance_High_Coverage"
    else "Low_Abundance_Low_Coverage"
  | _, _ => "Incomplete_Data"

def magLabels : List String :=
  ["High_Abundance_High_Coverage", "High_Abundance_Low_Coverage",
   "Low_Abundance_High_Coverage", "Low_Abundance_Low_Coverage",
   "Incomplete_Data"]

/-- Claim C5: the classification agrees with the source thresholds 5/80,
always yields exactly one label of the closed enumeration, maps any
missing axis to Incomplete_Data before any threshold logic, and classifies
a value exactly equal to its threshold on the non-exceeding (low) side of
that axis. -/
theorem C5_classification (t1 t2 : ℚ) (ra cov : Option ℚ) :
    classify ra cov = classifyWith 5 80 ra cov ∧
    classifyWith t1 t2 ra cov ∈ magLabels ∧
    ((ra = none ∨ cov = none) →
      classifyWith t1 t2 ra cov = "Incomplete_Data") ∧
    (∀ a c, ra = some a → cov = some c →
      ((a = t1 →
        classifyWith t1 t2 ra cov = "Low_Abundance_High_Coverage" ∨
        classifyWith t1 t2 ra cov = "Low_Abundance_Low_Coverage") ∧
       (c = t2 →
        classifyWith t1 t2 ra cov = "High_Abundance_Low_Coverage" ∨
        classifyWith t1 t2 ra cov = "Low_Abundance_Low_Coverage"))) := by
  refine ⟨rfl, ?_, ?_, ?_⟩
  · cases ra with
    | none => cases cov <;> simp [classifyWith, magLabels]
    | some a =>
      cases cov with
      | none => simp [classifyWith, magLabels]
      | some c =>
        simp only [classifyWith]
        split_ifs <;> simp [magLabels]
  · rintro (rfl | rfl)
    · cases cov <;> rfl
    · cases ra <;> rfl
  · rintro a c rfl rfl
    constructor
    · rintro rfl
      by_cases h : t2 < c
      · left
        simp only [classifyWith]
        rw [if_neg (fun hc => lt_irrefl a hc.1),
          if_neg (fun hc => lt_irrefl a hc.1),
          if_pos (show a ≤ a ∧ t2 < c from ⟨le_refl a, h⟩)]
      · right
        simp only [classifyWith]
        rw [if_neg (fun hc => lt_irrefl a hc.1),
          if_neg (fun hc => lt_irrefl a hc.1),
          if_neg (fun hc => h hc.2)]
    · rintro rfl
      by_cases h : t1 < a
      · left
        simp only [classifyWith]
        rw [if_neg (fun hc => lt_irrefl c hc.2),
          if_pos (show t1 < a ∧ c ≤ c from ⟨h, le_refl c⟩)]
      · right
        simp only [classifyWith]
        rw [if_neg (fun hc => lt_irrefl c hc.2),
          if_neg (fun hc => h hc.1),
          if_neg (fun hc => lt_irrefl c hc.2)]

/-- Claim C5 (witness): a value sitting exactly on the abundance threshold
is classified on the low-abundance side. -/
theorem C5_classification_witness :
    classifyWith 3 7 (some 3) (some 9) = "Low_Abundance_High_Coverage" ∨
    classifyWith 3 7 (some 3) (some 9) = "Low_Abundance_Low_Coverage" :=
  (((C5_classification 3 7 (some 3) (some 9)).2.2.2) 3 9 rfl rfl).1 rfl

/-! ## Aggregation (scripts/03_calculate_expression_ratios.py, lines 61-62,
and combine_abundance_coverage.py lines 100-101)

`df.mean(axis=1)` and `df.std(axis=1)` with pandas defaults: NaN entries
are skipped, the mean is arithmetic over the remaining entries, and the
standard deviation uses the n - 1 (ddof = 1) denominator, returning NaN
when at most one defined value remains.  The source standard deviation is
the square root of `sampleVar`; the square root of a defined non-negative
value is defined and the square root of NaN is NaN, so definedness claims
are settled on the variance. -/

def nanmean (l : List (Option ℚ)) : Option ℚ :=
  let d := definedVals l
  if d.length = 0 then none else some (d.sum / d.length)

def sampleVar (l : List (Option ℚ)) : Option ℚ :=
  let d := definedVals l
  if d.length ≤ 1 then none
  else some ((d.map (fun x => (x - d.sum / d.length) ^ 2)).sum
      / ((d.length : ℚ) - 1))

lemma definedVals_append_none (l1 l2 : List (Option ℚ)) :
    definedVals (l1 ++ none :: l2) = definedVals (l1 ++ l2) := by
  simp [definedVals, List.filterMap_append, List.filterMap_cons]

lemma definedVals_all_some (rs : List ℚ) :
    definedVals (rs.map some) = rs := by
  induction rs with
  | nil => rfl
  | cons a l ih =>
    simp only [List.map_cons, definedVals, List.filterMap_cons, id] at *
    rw [ih]

/-- Claim C9: the aggregation mean and dispersion skip NaN entries — a NaN
inserted at any position leaves both statistics unchanged, and a NaN is
not treated as a zero (the mean of one defined value 2 plus one NaN is 2,
not 1). -/
theorem C9_nan_skipped (l1 l2 : List (Option ℚ)) :
    nanmean (l1 ++ none :: l2) = nanmean (l1 ++ l2) ∧
    sampleVar (l1 ++ none :: l2) = sampleVar (l1 ++ l2) ∧
    nanmean [some (2:ℚ), none] = some 2 := by
  refine ⟨?_, ?_, ?_⟩
  · simp only [nanmean, definedVals_append_none]
  · simp only [sampleVar, definedVals_append_none]
  · norm_num [nanmean, definedVals, List.filterMap_cons]

/-- Claim C8 (counterexample): a feature with a single per-sample ratio
gets dispersion NaN from the n - 1 denominator, not the sentinel 0 the
claim states. -/
theorem C8_stddev_counterexample :
    sampleVar [some (3:ℚ)] = none ∧ sampleVar [some (3:ℚ)] ≠ some 0 := by
  have h : sampleVar [some (3:ℚ)] = none := rfl
  exact ⟨h, by rw [h]; exact fun hc => Option.noConfusion hc⟩

/-- Claim C8 (amended): the mean is the arithmetic mean of the per-sample
ratios, and the dispersion is the sample standard deviation with the n - 1
denominator when n > 1; when n = 1 the dispersion is undefined (NaN), not
the sentinel 0. -/
theorem C8_mean_std_amended (rs : List ℚ) (h : rs ≠ []) :
    nanmean (rs.map some) = some (rs.sum / rs.length) ∧
    (rs.length = 1 → sampleVar (rs.map some) = none) ∧
    (1 < rs.length → sampleVar (rs.map some)
      = some ((rs.map (fun x => (x - rs.sum / rs.length) ^ 2)).sum
          / ((rs.length : ℚ) - 1))) := by
  have hd : definedVals (rs.map some) = rs := definedVals_all_some rs
  refine ⟨?_, ?_, ?_⟩
  · have hlen : ¬ rs.length = 0 := by simpa using h
    simp only [nanmean, hd, if_neg hlen]
  · intro h1
    simp only [sampleVar, hd, h1, if_pos (le_refl 1)]
  · intro h1
    have hgt : ¬ rs.length ≤ 1 := by omega
    simp only [sampleVar, hd, if_neg hgt]

/-- Claim C8 (witness): the amended statement at the two-sample ratio list
[1, 3]. -/
theorem C8_mean_std_witness :
    nanmean ([(1:ℚ), 3].map some)
      = some (([(1:ℚ), 3]).sum / ([(1:ℚ), 3]).length) ∧
    (([(1:ℚ), 3]).length = 1 → sampleVar ([(1:ℚ), 3].map some) = none) ∧
    (1 < ([(1:ℚ), 3]).length → sampleVar ([(1:ℚ), 3].map some)
      = some ((([(1:ℚ), 3]).map
            (fun x => (x - ([(1:ℚ), 3]).sum / ([(1:ℚ), 3]).length) ^ 2)).sum
          / ((([(1:ℚ), 3]).length : ℚ) - 1))) :=
  C8_mean_std_amended [(1:ℚ), 3] (by simp)

end Metagenome
